import Mathlib

/-
Formal model of the pin-management core of the hwio repository.

The Go source is shallowly embedded: the file-system layer used by the
GPIO and analog modules (sysfs export/unexport, direction and value
files, the saradc analog device nodes) is modelled by an explicit
state structure `FS`, and every module operation becomes an explicit
state-passing function.  The literal sysfs path strings built by the
source ("/sys/class/gpio/gpio" + itoa(n) + "/value" and so on) are
represented by the structured type `SPath`; the string constructors are
injective, so this preserves the distinctness and equality behaviour of
the concrete paths.  Functions named after Go identifiers are direct
translations of the corresponding functions in the source; parts of the
repository that are not in the sources at hand (the registry helpers,
CpuInfo, logical level constants) are modelled from the specification
and marked as such in their doc comments.
-/

namespace Hwio

/-- Errors are modelled by their message strings, as produced by
errors.New and fmt.Errorf in the source. -/
abbrev Err := String

/-- Association-list lookup with decidable key equality; models Go map
indexing. -/
def lookupA {α β : Type} [DecidableEq α] (l : List (α × β)) (k : α) : Option β :=
  match l with
  | [] => none
  | e :: t => if e.1 = k then some e.2 else lookupA t k

/-- Association-list update/insert; models Go map assignment. -/
def setA {α β : Type} [DecidableEq α] (l : List (α × β)) (k : α) (v : β) : List (α × β) :=
  match l with
  | [] => [(k, v)]
  | e :: t => if e.1 = k then (k, v) :: t else e :: setA t k v

/-- Association-list removal; models Go map delete. -/
def eraseA {α β : Type} [DecidableEq α] (l : List (α × β)) (k : α) : List (α × β) :=
  l.filter (fun e => decide (e.1 ≠ k))

/-- The character for a single decimal digit. -/
def digitChar (d : Nat) : Char := Char.ofNat (48 + d)

/-- Fuel-driven digit expansion; `fuel` exceeding the number itself is
always sufficient, since the value shrinks at every division by ten. -/
def decimalReprAux (fuel n : Nat) : List Char :=
  match fuel with
  | 0 => []
  | fuel + 1 =>
    if n < 10 then [digitChar n]
    else decimalReprAux fuel (n / 10) ++ [digitChar (n % 10)]

/-- Decimal digit string of a natural number; models the output of Go's
strconv.Itoa / strconv.FormatInt for the non-negative values the source
passes to them. -/
def decimalRepr (n : Nat) : List Char := decimalReprAux (n + 1) n

/-- All characters are ASCII digits. -/
def allDigits (l : List Char) : Bool := l.all Char.isDigit

/-- Value of a decimal digit string. -/
def digitsVal (l : List Char) : Nat :=
  l.foldl (fun a c => a * 10 + (c.toNat - 48)) 0

/-- The decimal string of a number, as written by the source via strconv. -/
def decimalStr (n : Nat) : String := String.mk (decimalRepr n)

/-- The message strconv.Atoi wraps around a syntax failure. -/
def atoiErr (s : String) : Err := "strconv.Atoi: parsing " ++ s ++ ": invalid syntax"

/-- Character-list body of the Atoi model below. -/
def AtoiList (l : List Char) : Except Err Int :=
  match l with
  | [] => .error (atoiErr (String.mk l))
  | c :: rest =>
    if c = '+' then
      if !rest.isEmpty && allDigits rest then .ok (digitsVal rest)
      else .error (atoiErr (String.mk l))
    else if c = '-' then
      if !rest.isEmpty && allDigits rest then .ok (-(digitsVal rest : Int))
      else .error (atoiErr (String.mk l))
    else
      if allDigits (c :: rest) then .ok (digitsVal (c :: rest))
      else .error (atoiErr (String.mk l))

/-- Model of Go's strconv.Atoi restricted to the small inputs the source
feeds it: an optional sign followed by one or more decimal digits parses to
the signed value, anything else is a syntax error.  (The int64 overflow
path of the real Atoi is unreachable here: the source only parses strings
of at most four characters.) -/
def Atoi (s : String) : Except Err Int := AtoiList s.data

/-- Strict decimal parse used by the modelled sysfs kernel side when a
number is written to the export/unexport control files. -/
def parseDec (s : String) : Option Nat :=
  if !s.data.isEmpty && allDigits s.data then some (digitsVal s.data) else none

/-- Structured representation of the path strings the source builds.
`exportCtl` and `unexportCtl` are the fixed /sys/class/gpio control files,
`gpioDir n` is the per-pin control directory for kernel GPIO number n,
`direction n` and `value n` are its two files, and `saradc ch` is the
analog device node for logical channel ch.  `invalid` stands for the
path obtained from Go's zero-value base name "" (never present in the
file system). -/
inductive SPath : Type
  | exportCtl : SPath
  | unexportCtl : SPath
  | gpioDir (n : Nat) : SPath
  | direction (n : Nat) : SPath
  | value (n : Nat) : SPath
  | saradc (ch : Nat) : SPath
  | invalid : SPath
deriving DecidableEq

/-- An open OS file handle: the path it was opened on, whether it was
opened for writing (O_WRONLY, as the source does for output value files)
or reading (O_RDONLY), whether it is still open, and its seek position. -/
structure Handle where
  hpath : SPath
  writable : Bool
  isOpen : Bool
  pos : Nat
deriving DecidableEq

/-- The modelled OS file-system state: the set of exported GPIO control
directories, the contents of existing files, the table of issued handles
with a fresh-id counter, plus the device-fault knobs `openFail` (paths on
which open fails, modelling an absent or unreadable device node) and
`readFail` (paths on which reads fail with a given error). -/
structure FS where
  dirs : List Nat
  files : List (SPath × String)
  handles : List (Nat × Handle)
  nextHandle : Nat
  openFail : List SPath
  readFail : List (SPath × Err)
deriving DecidableEq

/-- Does a path exist?  Models the fileExists helper of the source for
the paths it is applied to. -/
def FS.fileExists (fs : FS) (p : SPath) : Bool :=
  match p with
  | .gpioDir n => decide (n ∈ fs.dirs)
  | _ => (lookupA fs.files p).isSome

/-- Modelled from the spec: WriteStringToFile (hwio.go, not under src/)
opens the named file, writes the string and closes it, together with the
sysfs kernel semantics of the control files (section 6 of the spec):
writing a pin number to the export path materialises its control
directory with a fresh direction file ("in") and value file ("0");
writing it to the unexport path removes them; writing to an ordinary
path replaces its content, and fails if the file does not exist. -/
def FS.writeStringToFile (fs : FS) (p : SPath) (s : String) : FS × Option Err :=
  match p with
  | .exportCtl =>
    match parseDec s with
    | none => (fs, some "write export: invalid argument")
    | some n =>
      if n ∈ fs.dirs then (fs, some "write export: device or resource busy")
      else ({ fs with
                dirs := n :: fs.dirs,
                files := setA (setA fs.files (SPath.direction n) "in") (SPath.value n) "0" },
            none)
  | .unexportCtl =>
    match parseDec s with
    | none => (fs, some "write unexport: invalid argument")
    | some n =>
      if n ∈ fs.dirs then
        ({ fs with
             dirs := fs.dirs.filter (fun m => decide (m ≠ n)),
             files := eraseA (eraseA fs.files (SPath.direction n)) (SPath.value n) },
         none)
      else (fs, some "write unexport: invalid argument")
  | _ =>
    match lookupA fs.files p with
    | some _ => ({ fs with files := setA fs.files p s }, none)
    | none => (fs, some "open: no such file or directory")

/-- os.OpenFile on the modelled file system.  `writable = true` stands
for O_WRONLY|O_TRUNC (the file is truncated at open, as the source
requests for output value files), `writable = false` for O_RDONLY. -/
def FS.openFile (fs : FS) (p : SPath) (writable : Bool) : FS × Except Err Nat :=
  if p ∈ fs.openFail then (fs, .error "open: device failure")
  else
    match lookupA fs.files p with
    | none => (fs, .error "open: no such file or directory")
    | some _ =>
      let files := if writable then setA fs.files p "" else fs.files
      ({ fs with
           files := files,
           handles := setA fs.handles fs.nextHandle
             { hpath := p, writable := writable, isOpen := true, pos := 0 },
           nextHandle := fs.nextHandle + 1 },
       .ok fs.nextHandle)

/-- (os.File).ReadAt with offset 0, as both call sites in the source use
it: returns the number of bytes delivered, the bytes, and the error.
A read through a missing, closed or write-only handle fails with zero
bytes, a fault injected via readFail fails with zero bytes and that
error, and otherwise up to bufLen bytes of the file content are
delivered, with io.EOF reported when fewer than bufLen were available. -/
def FS.readAt (fs : FS) (hid : Nat) (bufLen : Nat) : Nat × List Char × Option Err :=
  match lookupA fs.handles hid with
  | none => (0, [], some "read: invalid argument")
  | some h =>
    if !h.isOpen then (0, [], some "read: file already closed")
    else if h.writable then (0, [], some "read: bad file descriptor")
    else
      match lookupA fs.readFail h.hpath with
      | some e => (0, [], some e)
      | none =>
        match lookupA fs.files h.hpath with
        | none => (0, [], some "read: input or output error")
        | some c =>
          let n := min bufLen c.data.length
          (n, c.data.take n, if n < bufLen then some "EOF" else none)

/-- (os.File).Seek(0, 0): rewind an open handle to the start. -/
def FS.seekStart (fs : FS) (hid : Nat) : FS × Option Err :=
  match lookupA fs.handles hid with
  | none => (fs, some "seek: invalid argument")
  | some h =>
    if !h.isOpen then (fs, some "seek: file already closed")
    else ({ fs with handles := setA fs.handles hid { h with pos := 0 } }, none)

/-- Overwrite `s` into `c` starting at byte position `pos`, keeping any
tail beyond the written range: the semantics of a write at a seek
position on a regular file. -/
def overwriteAt (c : String) (pos : Nat) (s : String) : String :=
  String.mk (c.data.take pos ++ s.data ++ c.data.drop (pos + s.data.length))

/-- (os.File).WriteString: writes at the current position.  Fails on a
missing, closed or read-only handle (the OS rejects writes through an
O_RDONLY descriptor). -/
def FS.writeString (fs : FS) (hid : Nat) (s : String) : FS × Option Err :=
  match lookupA fs.handles hid with
  | none => (fs, some "write: invalid argument")
  | some h =>
    if !h.isOpen then (fs, some "write: file already closed")
    else if !h.writable then (fs, some "write: bad file descriptor")
    else
      match lookupA fs.files h.hpath with
      | none => (fs, some "write: input or output error")
      | some c =>
        ({ fs with
             files := setA fs.files h.hpath (overwriteAt c h.pos s),
             handles := setA fs.handles hid { h with pos := h.pos + s.data.length } },
         none)

/-- (os.File).Close, on an optional handle: Close on Go's nil *os.File
returns os.ErrInvalid; closing an already closed handle is an error;
otherwise the handle is marked closed. -/
def FS.closeHandle (fs : FS) (f : Option Nat) : FS × Option Err :=
  match f with
  | none => (fs, some "invalid argument")
  | some hid =>
    match lookupA fs.handles hid with
    | none => (fs, some "close: invalid argument")
    | some h =>
      if !h.isOpen then (fs, some "close: file already closed")
      else ({ fs with handles := setA fs.handles hid { h with isOpen := false } }, none)

/-- (os.File).ReadAt through an optional file pointer: on Go's nil
*os.File it returns os.ErrInvalid. -/
def fileReadAt (fs : FS) (f : Option Nat) (bufLen : Nat) : Nat × List Char × Option Err :=
  match f with
  | none => (0, [], some "invalid argument")
  | some hid => fs.readAt hid bufLen

/-- Pin I/O modes of hwio (PinIOMode in hwio.go; Input is the Go zero
value). -/
inductive PinIOMode : Type
  | input
  | output
  | inputPullUp
  | inputPullDown
deriving DecidableEq

/-- Modelled from the spec: the logical high level constant from hwio.go
(not under src/); the high token is the character "1". -/
def High : Int := 1

/-- Modelled from the spec: the logical low level constant from hwio.go
(not under src/); the low token is the character "0". -/
def Low : Int := 0

/-- The process-wide pin assignment registry: pin number to owning
module name. -/
abbrev Registry := List (Nat × String)

/-- Modelled from the spec: AssignPin (hwio.go, not under src/) claims a
pin for a module; assigning a pin the same module already owns is a
no-op success, assigning a pin another module owns fails with an
ownership error, and assigning an unowned pin records the owner
(spec section 4.3). -/
def assignPin (reg : Registry) (pin : Nat) (m : String) : Registry × Option Err :=
  match lookupA reg pin with
  | none => ((pin, m) :: reg, none)
  | some owner =>
    if owner = m then (reg, none)
    else (reg, some "pin is already assigned to another module")

/-- Modelled from the spec: UnassignPin (hwio.go, not under src/)
releases a pin; releasing a pin that is not assigned fails with a
not-assigned error (spec section 4.3). -/
def unassignPin (reg : Registry) (pin : Nat) : Registry × Option Err :=
  match lookupA reg pin with
  | none => (reg, some "pin is not assigned")
  | some _ => (eraseA reg pin, none)

/-- Modelled from the spec: ownerOf (spec section 4.3) looks up the
module currently owning a pin. -/
def ownerOf (reg : Registry) (pin : Nat) : Option String :=
  lookupA reg pin

/-- DTGPIOModulePinDef from module_dtgpio.go. -/
structure DTGPIOModulePinDef where
  pin : Nat
  gpioLogical : Nat
deriving DecidableEq

/-- DTGPIOModuleOpenPin from module_dtgpio.go.  `gpioBaseName` holds the
per-pin control directory computed by gpioExport (`none` is Go's
zero-value empty string, before gpioExport ran); `valueFile` is the
cached value-file handle (`none` is Go's nil *os.File). -/
structure DTGPIOModuleOpenPin where
  pin : Nat
  gpioLogical : Nat
  gpioBaseName : Option Nat
  mode : PinIOMode
  valueFile : Option Nat
deriving DecidableEq

/-- DTGPIOModule from module_dtgpio.go: name, defined pin map and open
pin map. -/
structure DTGPIOModule where
  name : String
  definedPins : List (Nat × DTGPIOModulePinDef)
  openPins : List (Nat × DTGPIOModuleOpenPin)
deriving DecidableEq

/-- The whole mutable state a GPIO-module operation can touch: the file
system, the process-wide registry and the module itself. -/
structure GSys where
  fs : FS
  registry : Registry
  gpio : DTGPIOModule
deriving DecidableEq

/-- The direction file path for a base directory (op.gpioBaseName +
"/direction" in the source; the Go zero-value base name "" yields a
nonexistent path). -/
def dirFileOf : Option Nat → SPath
  | some n => SPath.direction n
  | none => SPath.invalid

/-- The value file path for a base directory (op.gpioBaseName +
"/value" in the source). -/
def valueFileOf : Option Nat → SPath
  | some n => SPath.value n
  | none => SPath.invalid

/-- DTGPIOModuleOpenPin.gpioExport (module_dtgpio.go): if the control
directory for the pin's kernel GPIO number does not exist yet, write the
number to the export control file; then record the base name. -/
def gpioExport (fs : FS) (op : DTGPIOModuleOpenPin) : FS × DTGPIOModuleOpenPin × Option Err :=
  if !(fs.fileExists (SPath.gpioDir op.gpioLogical)) then
    match fs.writeStringToFile SPath.exportCtl (decimalStr op.gpioLogical) with
    | (fs1, some e) => (fs1, op, some e)
    | (fs1, none) => (fs1, { op with gpioBaseName := some op.gpioLogical }, none)
  else
    (fs, { op with gpioBaseName := some op.gpioLogical }, none)

/-- DTGPIOModuleOpenPin.gpioUnexport (module_dtgpio.go): write the
kernel GPIO number to the unexport control file. -/
def gpioUnexport (fs : FS) (op : DTGPIOModuleOpenPin) : FS × Option Err :=
  fs.writeStringToFile SPath.unexportCtl (decimalStr op.gpioLogical)

/-- DTGPIOModuleOpenPin.gpioDirection (module_dtgpio.go): validate the
direction string, write it to the direction file (the result of that
write is discarded by the source: the local e is reassigned by the
OpenFile that follows), then open the value file read-only for "in" and
write+truncate otherwise, caching the resulting handle in the open-pin
record. -/
def gpioDirection (fs : FS) (op : DTGPIOModuleOpenPin) (dir : String) :
    FS × DTGPIOModuleOpenPin × Option Err :=
  if dir ≠ "in" && dir ≠ "out" then (fs, op, some "direction must be in or out")
  else
    let w1 := fs.writeStringToFile (dirFileOf op.gpioBaseName) dir
    let mode := !(dir = "in")
    match (w1.1).openFile (valueFileOf op.gpioBaseName) mode with
    | (fs2, .ok h) => (fs2, { op with valueFile := some h }, none)
    | (fs2, .error e) => (fs2, { op with valueFile := none }, some e)

/-- DTGPIOModuleOpenPin.gpioGetValue (module_dtgpio.go): read up to one
byte at offset 0; a delivered byte equal to '1' is High, any other
delivered byte is Low, no delivered byte leaves the value 0; the error
of the ReadAt is returned as is. -/
def gpioGetValue (fs : FS) (op : DTGPIOModuleOpenPin) : Int × Option Err :=
  match fileReadAt fs op.valueFile 1 with
  | (n, b, e) =>
    let value : Int := if n > 0 then (if b.headD ' ' = '1' then High else Low) else 0
    (value, e)

/-- DTGPIOModuleOpenPin.gpioSetValue (module_dtgpio.go): fail if the
cached value file is nil, seek to the start (returning a seek failure),
then write "0" for value 0 and "1" otherwise; the result of the
WriteString itself is discarded by the source. -/
def gpioSetValue (fs : FS) (op : DTGPIOModuleOpenPin) (value : Int) : FS × Option Err :=
  match op.valueFile with
  | none => (fs, some "value file is not defined")
  | some h =>
    match fs.seekStart h with
    | (fs1, some e) => (fs1, some e)
    | (fs1, none) =>
      let w := fs1.writeString h (if value = 0 then "0" else "1")
      (w.1, none)

/-- DTGPIOModule.makeOpenGPIOPin (module_dtgpio.go): create a fresh
open-pin record for a defined pin and install it in the module's open
pin map (replacing any record already there). -/
def makeOpenGPIOPin (s : GSys) (pin : Nat) : GSys × Except Err DTGPIOModuleOpenPin :=
  match lookupA s.gpio.definedPins pin with
  | none => (s, .error "pin is not known to GPIO module")
  | some p =>
    let op : DTGPIOModuleOpenPin :=
      { pin := pin, gpioLogical := p.gpioLogical, gpioBaseName := none,
        mode := PinIOMode.input, valueFile := none }
    ({ s with gpio := { s.gpio with openPins := setA s.gpio.openPins pin op } }, .ok op)

/-- DTGPIOModule.ClosePin (module_dtgpio.go): unexport, close the cached
value file, remove the open-pin record and unassign the pin; each
failure returns immediately, leaving the remaining steps undone. -/
def moduleClosePin (s : GSys) (pin : Nat) : GSys × Option Err :=
  match lookupA s.gpio.openPins pin with
  | none => (s, some "pin is being closed but has not been opened, call PinMode")
  | some op =>
    match gpioUnexport s.fs op with
    | (fs1, some e) => ({ s with fs := fs1 }, some e)
    | (fs1, none) =>
      match fs1.closeHandle op.valueFile with
      | (fs2, some e) => ({ s with fs := fs2 }, some e)
      | (fs2, none) =>
        let gpio := { s.gpio with openPins := eraseA s.gpio.openPins pin }
        match unassignPin s.registry pin with
        | (reg, e) => ({ fs := fs2, registry := reg, gpio := gpio }, e)

/-- Modelled from the spec: the package-level ClosePin (hwio.go, not
under src/) looks up the pin's owning module in the Registry and
dispatches to that module's ClosePin (spec section 4.4, transition 4:
unexport, close the handle, remove the Registry entry). -/
def ClosePin (s : GSys) (pin : Nat) : GSys × Option Err :=
  match ownerOf s.registry pin with
  | some m =>
    if m = s.gpio.name then moduleClosePin s pin
    else (s, some "pin is assigned to a different module")
  | none => (s, some "pin is not assigned to a module")

/-- DTGPIOModule.PinMode (module_dtgpio.go): reject unknown pins; if the
pin is open under a different mode, run the package-level close path
(whose error the source discards); assign the pin through the registry;
create a fresh open-pin record; export; write the direction and open the
value file; finally record the new mode. -/
def PinMode (s : GSys) (pin : Nat) (mode : PinIOMode) : GSys × Option Err :=
  match lookupA s.gpio.definedPins pin with
  | none => (s, some "pin is not known as a GPIO pin")
  | some _ =>
    let s1 :=
      match lookupA s.gpio.openPins pin with
      | some oldOpen => if mode ≠ oldOpen.mode then (ClosePin s pin).1 else s
      | none => s
    match assignPin s1.registry pin s1.gpio.name with
    | (reg, some e) => ({ s1 with registry := reg }, some e)
    | (reg, none) =>
      let s2 := { s1 with registry := reg }
      match makeOpenGPIOPin s2 pin with
      | (s3, .error e) => (s3, some e)
      | (s3, .ok op0) =>
        match gpioExport s3.fs op0 with
        | (fs4, op1, some e) =>
          ({ s3 with
               fs := fs4,
               gpio := { s3.gpio with openPins := setA s3.gpio.openPins pin op1 } }, some e)
        | (fs4, op1, none) =>
          let s4 := { s3 with
                        fs := fs4,
                        gpio := { s3.gpio with openPins := setA s3.gpio.openPins pin op1 } }
          let dir := if mode = PinIOMode.output then "out" else "in"
          match gpioDirection s4.fs op1 dir with
          | (fs5, op2, some e) =>
            ({ s4 with
                 fs := fs5,
                 gpio := { s4.gpio with openPins := setA s4.gpio.openPins pin op2 } }, some e)
          | (fs5, op2, none) =>
            let op3 := { op2 with mode := mode }
            ({ s4 with
                 fs := fs5,
                 gpio := { s4.gpio with openPins := setA s4.gpio.openPins pin op3 } }, none)

/-- DTGPIOModule.DigitalWrite (module_dtgpio.go): fail when the pin has
no open-pin record; otherwise call gpioSetValue, whose error the source
discards, and return nil. -/
def DigitalWrite (s : GSys) (pin : Nat) (value : Int) : GSys × Option Err :=
  match lookupA s.gpio.openPins pin with
  | none => (s, some "pin is being written but has not been opened, called PinMode")
  | some op =>
    let w := gpioSetValue s.fs op value
    ({ s with fs := w.1 }, none)

/-- DTGPIOModule.DigitalRead (module_dtgpio.go): fail when the pin has
no open-pin record; otherwise return gpioGetValue of the cached
handle. -/
def DigitalRead (s : GSys) (pin : Nat) : Int × Option Err :=
  match lookupA s.gpio.openPins pin with
  | none => (0, some "pin is being read from but has not been opened, call PinMode")
  | some op => gpioGetValue s.fs op

/-- DTGPIOModule.Disable (module_dtgpio.go): for every open pin, call
gpioUnexport, discarding its result; nothing else is touched. -/
def gpioModuleDisable (s : GSys) : GSys × Option Err :=
  let fs := s.gpio.openPins.foldl (fun fs e => (gpioUnexport fs e.2).1) s.fs
  ({ s with fs := fs }, none)

/-- ODroidCXAnalogModulePinDef from the analog module source. -/
structure ODroidCXAnalogModulePinDef where
  pin : Nat
  analogLogical : Nat
deriving DecidableEq

/-- ODroidCXAnalogModuleOpenPin from the analog module source:
`analogFile` is the computed device path, `valueFile` the cached
read-only handle (`none` is Go's nil *os.File). -/
structure ODroidCXAnalogModuleOpenPin where
  pin : Nat
  analogLogical : Nat
  analogFile : SPath
  valueFile : Option Nat
deriving DecidableEq

/-- ODroidCXAnalogModule from the analog module source. -/
structure ODroidCXAnalogModule where
  name : String
  analogInitialised : Bool
  definedPins : List (Nat × ODroidCXAnalogModulePinDef)
  openPins : List (Nat × ODroidCXAnalogModuleOpenPin)
deriving DecidableEq

/-- The mutable state an analog-module operation can touch. -/
structure ASys where
  fs : FS
  registry : Registry
  amod : ODroidCXAnalogModule
deriving DecidableEq

/-- ODroidCXAnalogModuleOpenPin.analogOpen: open the analog device file
read-only and cache the handle (nil on failure, as os.OpenFile returns a
nil *os.File with the error). -/
def analogOpen (fs : FS) (op : ODroidCXAnalogModuleOpenPin) :
    FS × ODroidCXAnalogModuleOpenPin × Option Err :=
  match fs.openFile op.analogFile false with
  | (fs1, .ok h) => (fs1, { op with valueFile := some h }, none)
  | (fs1, .error e) => (fs1, { op with valueFile := none }, some e)

/-- ODroidCXAnalogModule.makeOpenAnalogPin: build the open-pin record
with the per-channel saradc path, install it in the open pin map, and
open the device file. -/
def makeOpenAnalogPin (s : ASys) (pin : Nat) : ASys × Option Err :=
  match lookupA s.amod.definedPins pin with
  | none => (s, some "pin is not known to analog module")
  | some p =>
    let op : ODroidCXAnalogModuleOpenPin :=
      { pin := pin, analogLogical := p.analogLogical,
        analogFile := SPath.saradc p.analogLogical, valueFile := none }
    let s1 := { s with amod := { s.amod with openPins := setA s.amod.openPins pin op } }
    match analogOpen s1.fs op with
    | (fs2, op1, e) =>
      ({ s1 with
           fs := fs2,
           amod := { s1.amod with openPins := setA s1.amod.openPins pin op1 } }, e)

/-- The loop body of ODroidCXAnalogModule.Enable: assign each defined
pin to the module and open it, stopping at the first failure. -/
def analogEnableLoop (s : ASys) :
    List (Nat × ODroidCXAnalogModulePinDef) → ASys × Option Err
  | [] => (s, none)
  | e :: t =>
    match assignPin s.registry e.1 s.amod.name with
    | (reg, some err) => ({ s with registry := reg }, some err)
    | (reg, none) =>
      match makeOpenAnalogPin { s with registry := reg } e.1 with
      | (s1, some err) => (s1, some err)
      | (s1, none) => analogEnableLoop s1 t

/-- ODroidCXAnalogModule.Enable: once-off initialisation that assigns
every defined pin to the module and opens it, stopping at the first
failure. -/
def analogEnable (s : ASys) : ASys × Option Err :=
  if s.amod.analogInitialised then (s, none)
  else
    let s0 := { s with amod := { s.amod with analogInitialised := true } }
    analogEnableLoop s0 s0.amod.definedPins

/-- ODroidCXAnalogModule.Disable: unassign every defined pin (ignoring
the result) and close every open pin's value file (ignoring the
result). -/
def analogDisable (s : ASys) : ASys × Option Err :=
  let reg := s.amod.definedPins.foldl (fun reg e => (unassignPin reg e.1).1) s.registry
  let fs := s.amod.openPins.foldl (fun fs e => (FS.closeHandle fs e.2.valueFile).1) s.fs
  ({ s with registry := reg, fs := fs }, none)

/-- ODroidCXAnalogModuleOpenPin.analogGetValue: ReadAt a 5-byte buffer
at offset 0; if the read failed and delivered no bytes, return that
error unchanged; otherwise parse all delivered bytes but the last one
with Atoi. -/
def analogGetValue (fs : FS) (op : ODroidCXAnalogModuleOpenPin) : Except Err Int :=
  match fileReadAt fs op.valueFile 5 with
  | (n, b, some e) =>
    if n = 0 then .error e else Atoi (String.mk (b.take (n - 1)))
  | (n, b, none) => Atoi (String.mk (b.take (n - 1)))

/-- ODroidCXAnalogModule.AnalogRead: fail when the pin has no open-pin
record, otherwise delegate to analogGetValue. -/
def AnalogRead (s : ASys) (pin : Nat) : Except Err Int :=
  match lookupA s.amod.openPins pin with
  | none => .error "pin is being read for analog value but has not been opened"
  | some op => analogGetValue s.fs op

/-- The dynamic type of a value stored in a Go options bundle
(map from string to empty interface), restricted to the value shapes the
two modules at hand ever receive. -/
inductive OptVal : Type
  | gpioPins (m : List (Nat × DTGPIOModulePinDef))
  | analogPins (m : List (Nat × ODroidCXAnalogModulePinDef))
  | str (s : String)
deriving DecidableEq

/-- Outcome of a Go call that can return normally, return an error, or
panic (used for the unchecked type assertions in SetOptions). -/
inductive GoOut (α : Type) : Type
  | ok (a : α)
  | err (e : Err)
  | panicked (msg : String)
deriving DecidableEq

/-- DTGPIOModule.SetOptions (module_dtgpio.go): error when the "pins"
key is absent (Go's nil interface); otherwise the unchecked type
assertion v.(DTGPIOModulePinDefMap) panics unless the value has exactly
that dynamic type, and on success the defined pin map is replaced. -/
def gpioSetOptions (m : DTGPIOModule) (options : List (String × OptVal)) :
    GoOut DTGPIOModule :=
  match lookupA options "pins" with
  | none => .err ("module " ++ m.name ++ " SetOptions() did not get pins values")
  | some v =>
    match v with
    | .gpioPins pm => .ok { m with definedPins := pm }
    | _ => .panicked "interface conversion: interface is not hwio.DTGPIOModulePinDefMap"

/-- ODroidCXAnalogModule.SetOptions: error when the "pins" key is
absent; otherwise the unchecked type assertion
v.(ODroidCXAnalogModulePinDefMap) panics unless the value has exactly
that dynamic type. -/
def analogSetOptions (m : ODroidCXAnalogModule) (options : List (String × OptVal)) :
    GoOut ODroidCXAnalogModule :=
  match lookupA options "pins" with
  | none => .err ("Module " ++ m.name ++ " SetOptions() did not get pins values")
  | some v =>
    match v with
    | .analogPins pm => .ok { m with definedPins := pm }
    | _ => .panicked "interface conversion: interface is not hwio.ODroidCXAnalogModulePinDefMap"

/-- The per-processor key/value records of /proc/cpuinfo: record i holds
the properties reported for processor i, the board-wide properties being
attached to the last record. -/
abbrev CpuInfoData := List (List (String × String))

/-- Modelled from the spec: CpuInfo (hwio.go, not under src/) reads the
system-identification file and returns the value of `key` within the
record of processor `n` (spec section 6); an absent record or key yields
the empty string. -/
def CpuInfo (data : CpuInfoData) (n : Nat) (key : String) : String :=
  match data.get? n with
  | none => ""
  | some r => (lookupA r key).getD ""

/-- OdroidCXDriver.MatchesHardwareConfig (driver_odroid_cx.go): read the
Hardware property of processor record 3 and match it against the two
known board identifiers. -/
def MatchesHardwareConfig (data : CpuInfoData) : Bool :=
  let hw := CpuInfo data 3 "Hardware"
  if hw = "ODROIDC" || hw = "ODROID-C2" then true else false

/-- OdroidCXDriver.BoardRevision (driver_odroid_cx.go): revision 1 for
"ODROIDC", revision 2 for "ODROID-C2", defaulting to 1. -/
def BoardRevision (data : CpuInfoData) : Nat :=
  let hw := CpuInfo data 3 "Hardware"
  if hw = "ODROIDC" then 1
  else if hw = "ODROID-C2" then 2
  else 1

/-- Written from the spec's words, for comparison with the source: the
Hardware field of the highest-numbered processor record of the
system-identification data. -/
def specHighestHardware (data : CpuInfoData) : String :=
  CpuInfo data (data.length - 1) "Hardware"


/-- The handle record freshly issued by openFile on a value file. -/
def freshValueHandle (n : Nat) (w : Bool) : Handle :=
  { hpath := SPath.value n, writable := w, isOpen := true, pos := 0 }

/-- The open-pin record PinMode leaves in the open-pin map on success:
base name recorded, mode set, value-file handle cached. -/
def donePin (pin n hid : Nat) (m : PinIOMode) : DTGPIOModuleOpenPin :=
  { pin := pin, gpioLogical := n, gpioBaseName := some n, mode := m, valueFile := some hid }

/-- What C1 asserts about the state after PinMode switches an open pin
to a different mode: success, a fresh open-pin record under the new
mode caching a brand-new handle, the old handle closed, the pin owned by
the module, the new direction written, a freshly initialised value file
(truncated for output, kernel-fresh "0" for input), the new handle
read-only for input and writable for output, a subsequent input read
seeing only the fresh state; plus the two side contracts the claim
names: gpioExport leaves the file system untouched when the control
directory already exists, and assignPin fails when a different module
owns the pin. -/
def c1Post (s : GSys) (pin : Nat) (m : PinIOMode) (p : DTGPIOModulePinDef)
    (op : DTGPIOModuleOpenPin) (hid : Nat) (h : Handle) : Prop :=
  (PinMode s pin m).2 = none ∧
  lookupA (PinMode s pin m).1.gpio.openPins pin =
    some (donePin pin p.gpioLogical s.fs.nextHandle m) ∧
  some s.fs.nextHandle ≠ op.valueFile ∧
  lookupA (PinMode s pin m).1.fs.handles hid = some { h with isOpen := false } ∧
  ownerOf (PinMode s pin m).1.registry pin = some s.gpio.name ∧
  lookupA (PinMode s pin m).1.fs.files (SPath.direction p.gpioLogical) =
    some (if m = PinIOMode.output then "out" else "in") ∧
  lookupA (PinMode s pin m).1.fs.files (SPath.value p.gpioLogical) =
    some (if m = PinIOMode.output then "" else "0") ∧
  lookupA (PinMode s pin m).1.fs.handles s.fs.nextHandle =
    some (freshValueHandle p.gpioLogical (decide (m = PinIOMode.output))) ∧
  (m = PinIOMode.input → DigitalRead (PinMode s pin m).1 pin = (Low, none)) ∧
  (∀ fs2 op2, FS.fileExists fs2 (SPath.gpioDir op2.gpioLogical) = true →
    gpioExport fs2 op2 = (fs2, { op2 with gpioBaseName := some op2.gpioLogical }, none)) ∧
  (∀ (reg : Registry) (q : Nat) (m1 m2 : String), lookupA reg q = some m1 → m1 ≠ m2 →
    assignPin reg q m2 = (reg, some "pin is already assigned to another module"))

/-- A small defined-pin map used by the concrete scenarios below: header
pin 7 backed by kernel GPIO 83, as on the Odroid C1 revision-1 table. -/
def pin7Def : DTGPIOModulePinDef := { pin := 7, gpioLogical := 83 }

/-- A GPIO module with pin 7 defined and no pin open. -/
def gpioMod0 : DTGPIOModule :=
  { name := "gpio", definedPins := [(7, pin7Def)], openPins := [] }

/-- An empty file system. -/
def fs0 : FS :=
  { dirs := [], files := [], handles := [], nextHandle := 0, openFail := [], readFail := [] }

/-- An open-pin record for pin 7 in output mode with cached handle 0. -/
def outOp7 : DTGPIOModuleOpenPin :=
  { pin := 7, gpioLogical := 83, gpioBaseName := some 83,
    mode := PinIOMode.output, valueFile := some 0 }

/-- An open-pin record for pin 7 in input mode with cached handle 0. -/
def inOp7 : DTGPIOModuleOpenPin :=
  { pin := 7, gpioLogical := 83, gpioBaseName := some 83,
    mode := PinIOMode.input, valueFile := some 0 }

/-- A system in which pin 7 is open for output (exported, direction
written, write-only handle 0 on its value file, pin assigned to the
module): the state left behind by PinMode(7, Output) followed by a
DigitalWrite of High. -/
def outSys7 : GSys :=
  { fs := { dirs := [83],
            files := [(SPath.direction 83, "out"), (SPath.value 83, "1")],
            handles := [(0, { hpath := SPath.value 83, writable := true,
                              isOpen := true, pos := 1 })],
            nextHandle := 1, openFail := [], readFail := [] },
    registry := [(7, "gpio")],
    gpio := { gpioMod0 with openPins := [(7, outOp7)] } }

/-- A system in which pin 7 is open for input (read-only handle 0 on its
value file whose content is "0"). -/
def inSys7 : GSys :=
  { fs := { dirs := [83],
            files := [(SPath.direction 83, "in"), (SPath.value 83, "0")],
            handles := [(0, { hpath := SPath.value 83, writable := false,
                              isOpen := true, pos := 0 })],
            nextHandle := 1, openFail := [], readFail := [] },
    registry := [(7, "gpio")],
    gpio := { gpioMod0 with openPins := [(7, inOp7)] } }

/-- An open-pin record for pin 7 whose value file is nil: the state the
source leaves in the open-pin map when PinMode fails after
makeOpenGPIOPin (for example because opening the value file failed). -/
def nilOp7 : DTGPIOModuleOpenPin :=
  { pin := 7, gpioLogical := 83, gpioBaseName := some 83,
    mode := PinIOMode.output, valueFile := none }

/-- A system in which pin 7 has an open-pin record with a nil value
file. -/
def nilSys7 : GSys :=
  { fs := fs0, registry := [(7, "gpio")],
    gpio := { gpioMod0 with openPins := [(7, nilOp7)] } }

/-- An analog module with pin 40 on channel 0, open with read-only
handle 0 on its device file, and the pin assigned in the registry: the
state after Enable. -/
def anaSys : ASys :=
  { fs := { dirs := [],
            files := [(SPath.saradc 0, "1000\n")],
            handles := [(0, { hpath := SPath.saradc 0, writable := false,
                              isOpen := true, pos := 0 })],
            nextHandle := 1, openFail := [], readFail := [] },
    registry := [(40, "analog")],
    amod := { name := "analog", analogInitialised := true,
              definedPins := [(40, { pin := 40, analogLogical := 0 })],
              openPins := [(40, { pin := 40, analogLogical := 0,
                                  analogFile := SPath.saradc 0, valueFile := some 0 })] } }

/-- The analog system of `anaSys` with the device text replaced by the
five-digit sample "12345". -/
def anaSys12345 : ASys :=
  { anaSys with fs := { anaSys.fs with files := [(SPath.saradc 0, "12345")] } }

/-- The analog system of `anaSys` with a device text containing no
digits at all. -/
def anaSysNoDigits : ASys :=
  { anaSys with fs := { anaSys.fs with files := [(SPath.saradc 0, "\n\n\n\n\n")] } }

/-- The analog system of `anaSys` with an injected device-level read
fault on the channel-0 device node. -/
def anaSysReadFault : ASys :=
  { anaSys with fs := { anaSys.fs with readFail := [(SPath.saradc 0, "read saradc: input error")] } }

/-- The /proc/cpuinfo records of a four-core board whose authoritative
last record identifies an ODROID-C2. -/
def cpuDataC2 : CpuInfoData :=
  [[("processor", "0")], [("processor", "1")], [("processor", "2")],
   [("processor", "3"), ("Hardware", "ODROID-C2")]]

-- Supporting lemmas about the association-list and decimal-string helpers.

theorem lookupA_setA_self {α β : Type} [DecidableEq α] (l : List (α × β)) (k : α) (v : β) :
    lookupA (setA l k v) k = some v := by
  induction l with
  | nil => simp [lookupA, setA]
  | cons e t ih =>
    by_cases h : e.1 = k
    · simp [lookupA, setA, h]
    · simp [lookupA, setA, h, ih]

theorem lookupA_setA_ne {α β : Type} [DecidableEq α] (l : List (α × β)) (k1 k2 : α) (v : β)
    (h : k1 ≠ k2) : lookupA (setA l k1 v) k2 = lookupA l k2 := by
  induction l with
  | nil => simp [lookupA, setA, h]
  | cons e t ih =>
    by_cases h1 : e.1 = k1
    · subst h1
      simp [lookupA, setA, h]
    · simp [lookupA, setA, h1, ih]

theorem lookupA_eraseA_self {α β : Type} [DecidableEq α] (l : List (α × β)) (k : α) :
    lookupA (eraseA l k) k = none := by
  induction l with
  | nil => rfl
  | cons e t ih =>
    by_cases h : e.1 = k <;>
      simp_all [eraseA, List.filter_cons, lookupA]

theorem lookupA_eraseA_ne {α β : Type} [DecidableEq α] (l : List (α × β)) (k1 k2 : α)
    (h : k1 ≠ k2) : lookupA (eraseA l k1) k2 = lookupA l k2 := by
  induction l with
  | nil => rfl
  | cons e t ih =>
    by_cases h1 : e.1 = k1
    · subst h1
      simp_all [eraseA, List.filter_cons, lookupA, h]
    · by_cases h2 : e.1 = k2 <;>
        simp_all [eraseA, List.filter_cons, lookupA]

theorem digitChar_isDigit (d : Nat) (h : d < 10) : (digitChar d).isDigit = true := by
  interval_cases d <;> decide

theorem digitChar_toNat (d : Nat) (h : d < 10) : (digitChar d).toNat - 48 = d := by
  interval_cases d <;> decide

theorem digitsVal_go (l : List Char) (a : Nat) :
    l.foldl (fun a c => a * 10 + (c.toNat - 48)) a = a * 10 ^ l.length + digitsVal l := by
  induction l generalizing a with
  | nil => simp [digitsVal]
  | cons c t ih =>
    simp only [List.foldl_cons, digitsVal, List.length_cons]
    rw [ih, ih (0 * 10 + (c.toNat - 48))]
    ring

theorem digitsVal_append_one (l : List Char) (c : Char) :
    digitsVal (l ++ [c]) = 10 * digitsVal l + (c.toNat - 48) := by
  simp only [digitsVal, List.foldl_append, List.foldl_cons, List.foldl_nil]
  rw [digitsVal_go]
  simp [digitsVal]
  ring

theorem decimalReprAux_ne_nil (fuel n : Nat) (h : n < fuel) : decimalReprAux fuel n ≠ [] := by
  cases fuel with
  | zero => omega
  | succ fuel =>
    rw [decimalReprAux]
    split
    · simp
    · simp

theorem decimalRepr_ne_nil (n : Nat) : decimalRepr n ≠ [] :=
  decimalReprAux_ne_nil (n + 1) n (by omega)

theorem allDigits_decimalReprAux (fuel : Nat) : ∀ n, n < fuel →
    allDigits (decimalReprAux fuel n) = true := by
  induction fuel with
  | zero => omega
  | succ fuel ih =>
    intro n h
    rw [decimalReprAux]
    split
    · simp [allDigits, digitChar_isDigit n (by omega)]
    · rename_i h10
      have h1 : n / 10 < n := Nat.div_lt_self (by omega) (by omega)
      have h2 := ih (n / 10) (by omega)
      simp only [allDigits, List.all_append, List.all_cons, List.all_nil] at *
      simp [h2, digitChar_isDigit (n % 10) (Nat.mod_lt _ (by omega))]

theorem allDigits_decimalRepr (n : Nat) : allDigits (decimalRepr n) = true :=
  allDigits_decimalReprAux (n + 1) n (by omega)

theorem digitsVal_decimalReprAux (fuel : Nat) : ∀ n, n < fuel →
    digitsVal (decimalReprAux fuel n) = n := by
  induction fuel with
  | zero => omega
  | succ fuel ih =>
    intro n h
    rw [decimalReprAux]
    split
    · rename_i h10
      simp [digitsVal, digitChar_toNat n h10]
    · rename_i h10
      have h1 : n / 10 < n := Nat.div_lt_self (by omega) (by omega)
      rw [digitsVal_append_one, ih (n / 10) (by omega),
        digitChar_toNat (n % 10) (Nat.mod_lt _ (by omega))]
      omega

theorem digitsVal_decimalRepr (n : Nat) : digitsVal (decimalRepr n) = n :=
  digitsVal_decimalReprAux (n + 1) n (by omega)

theorem AtoiList_decimalRepr (v : Nat) : AtoiList (decimalRepr v) = .ok (v : Int) := by
  have hall := allDigits_decimalRepr v
  have hval := digitsVal_decimalRepr v
  have hnil := decimalRepr_ne_nil v
  unfold AtoiList
  cases hl : decimalRepr v with
  | nil => exact absurd hl hnil
  | cons c t =>
    rw [hl] at hall hval
    have hc : c.isDigit = true := by
      simp only [allDigits, List.all_cons, Bool.and_eq_true] at hall
      exact hall.1
    have hplus : ¬(c = '+') := by intro h; rw [h] at hc; simp [Char.isDigit] at hc
    have hminus : ¬(c = '-') := by intro h; rw [h] at hc; simp [Char.isDigit] at hc
    simp only [hplus, hminus, if_false, hall, if_true, hval]

theorem Atoi_decimalStr (v : Nat) : Atoi (decimalStr v) = .ok (v : Int) :=
  AtoiList_decimalRepr v

/-- A character list with no digit at all never parses: every branch of
AtoiList returns the syntax error on it. -/
theorem AtoiList_no_digits (l : List Char) (h : ∀ ch ∈ l, ch.isDigit = false) :
    AtoiList l = .error (atoiErr (String.mk l)) := by
  unfold AtoiList
  cases l with
  | nil => rfl
  | cons c rest =>
    have hrest : allDigits rest = false ∨ rest.isEmpty = true := by
      cases rest with
      | nil => exact Or.inr rfl
      | cons c2 t2 =>
        refine Or.inl ?_
        have hc2 : c2.isDigit = false := h c2 (by simp)
        simp [allDigits, hc2]
    have hfail : (!rest.isEmpty && allDigits rest) = false := by
      rcases hrest with h1 | h1 <;> simp [h1]
    by_cases hp : c = '+'
    · simp [hp, hfail]
    · by_cases hm : c = '-'
      · simp [hp, hm, hfail]
      · have hc : c.isDigit = false := h c (by simp)
        simp [hp, hm, allDigits, hc]

theorem parseDec_decimalStr (n : Nat) : parseDec (decimalStr n) = some n := by
  have hall := allDigits_decimalRepr n
  have hval := digitsVal_decimalRepr n
  have hnil := decimalRepr_ne_nil n
  unfold parseDec decimalStr
  simp only [hall, hval]
  rw [if_pos]
  simp [List.isEmpty_iff, hnil]

theorem setA_setA {α β : Type} [DecidableEq α] (l : List (α × β)) (k : α) (v1 v2 : β) :
    setA (setA l k v1) k v2 = setA l k v2 := by
  induction l with
  | nil => simp [setA]
  | cons e t ih =>
    by_cases h : e.1 = k
    · simp [setA, h]
    · simp [setA, h, ih]

/-- On a live read-only handle over content `c`, analogGetValue parses
exactly the delivered bytes minus the final one. -/
theorem analogGetValue_content (fs : FS) (op : ODroidCXAnalogModuleOpenPin)
    (hid : Nat) (h : Handle) (c : String)
    (hvf : op.valueFile = some hid)
    (hh : lookupA fs.handles hid = some h)
    (hopen : h.isOpen = true) (hro : h.writable = false)
    (hnrf : lookupA fs.readFail h.hpath = none)
    (hfile : lookupA fs.files h.hpath = some c)
    (hne : c.data ≠ []) :
    analogGetValue fs op = AtoiList (c.data.take (min 5 c.data.length - 1)) := by
  obtain ⟨l⟩ := c
  have hne2 : l ≠ [] := hne
  have hlen : 0 < l.length := List.length_pos.mpr hne2
  unfold analogGetValue fileReadAt FS.readAt
  simp only [hvf, hh, hopen, hro, hnrf, hfile, Bool.not_true, Bool.false_eq_true, if_false]
  by_cases h5 : l.length < 5
  · have hmin : min 5 l.length = l.length := by omega
    have hn0 : ¬(l.length = 0) := by omega
    simp [hmin, h5, hn0, Atoi, List.take_take, Nat.min_eq_left (Nat.sub_le l.length 1)]
  · have hmin : min 5 l.length = 5 := by omega
    simp [hmin, h5, Atoi, List.take_take]

-- ### C3

/-- C3: with an analog pin open on a live read-only handle, AnalogRead
returns the exact decimal value the device text represents whenever the
text is a digit string of at most four digits followed by a newline
terminator; it fails with the Atoi parse error when the delivered bytes
contain no digits at all; and when the read itself fails delivering zero
bytes, that error is propagated unchanged. -/
theorem c3_analog_read_parses (s : ASys) (pin : Nat)
    (op : ODroidCXAnalogModuleOpenPin) (hid : Nat) (h : Handle)
    (hop : lookupA s.amod.openPins pin = some op)
    (hvf : op.valueFile = some hid)
    (hh : lookupA s.fs.handles hid = some h)
    (hopen : h.isOpen = true) (hro : h.writable = false) :
    (∀ v : Nat, lookupA s.fs.readFail h.hpath = none →
      lookupA s.fs.files h.hpath = some (String.mk (decimalRepr v ++ ['\n'])) →
      (decimalRepr v).length ≤ 4 →
      AnalogRead s pin = .ok (v : Int)) ∧
    (∀ c : String, lookupA s.fs.readFail h.hpath = none →
      lookupA s.fs.files h.hpath = some c → c.data ≠ [] →
      (∀ ch ∈ c.data, ch.isDigit = false) →
      ∃ t, AnalogRead s pin = .error (atoiErr t)) ∧
    (∀ e : Err, lookupA s.fs.readFail h.hpath = some e →
      AnalogRead s pin = .error e) := by
  refine ⟨?_, ?_, ?_⟩
  · intro v hnrf hfile hlen4
    unfold AnalogRead
    simp only [hop]
    rw [analogGetValue_content s.fs op hid h _ hvf hh hopen hro hnrf hfile (by simp)]
    have hdata : (String.mk (decimalRepr v ++ ['\n'])).data = decimalRepr v ++ ['\n'] := rfl
    rw [hdata]
    have hlen : (decimalRepr v ++ ['\n']).length = (decimalRepr v).length + 1 := by simp
    have hmin : min 5 (decimalRepr v ++ ['\n']).length = (decimalRepr v).length + 1 := by
      rw [hlen]; omega
    rw [hmin]
    simp only [Nat.add_sub_cancel]
    rw [List.take_left]
    exact AtoiList_decimalRepr v
  · intro c hnrf hfile hne hnd
    unfold AnalogRead
    simp only [hop]
    rw [analogGetValue_content s.fs op hid h c hvf hh hopen hro hnrf hfile hne]
    refine ⟨_, AtoiList_no_digits _ ?_⟩
    intro ch hch
    exact hnd ch (List.take_subset _ _ hch)
  · intro e hrf
    unfold AnalogRead
    simp only [hop]
    unfold analogGetValue fileReadAt FS.readAt
    simp [hvf, hh, hopen, hro, hrf]

/-- Witness for C3: the enabled analog system with device text "1000\n"
reads exactly 1000. -/
theorem c3_analog_read_parses_witness :
    (lookupA anaSys.amod.openPins 40 =
       some { pin := 40, analogLogical := 0, analogFile := SPath.saradc 0, valueFile := some 0 } ∧
     lookupA anaSys.fs.readFail (SPath.saradc 0) = none ∧
     lookupA anaSys.fs.files (SPath.saradc 0) = some (String.mk (decimalRepr 1000 ++ ['\n'])) ∧
     (decimalRepr 1000).length ≤ 4) ∧
    AnalogRead anaSys 40 = .ok (1000 : Int) :=
  ⟨by decide,
   (c3_analog_read_parses anaSys 40
      { pin := 40, analogLogical := 0, analogFile := SPath.saradc 0, valueFile := some 0 }
      0 { hpath := SPath.saradc 0, writable := false, isOpen := true, pos := 0 }
      (by decide) (by decide) (by decide) (by decide) (by decide)).1
     1000 (by decide) (by decide) (by decide)⟩

-- ### C9

/-- C9: the analog read buffer is five bytes and the last delivered byte
is always discarded before parsing: for device texts of five or more
characters AnalogRead parses exactly the first four characters, so
five-digit sample values cannot be returned exactly. -/
theorem c9_analog_buffer_truncation (s : ASys) (pin : Nat)
    (op : ODroidCXAnalogModuleOpenPin) (hid : Nat) (h : Handle) (c : String)
    (hop : lookupA s.amod.openPins pin = some op)
    (hvf : op.valueFile = some hid)
    (hh : lookupA s.fs.handles hid = some h)
    (hopen : h.isOpen = true) (hro : h.writable = false)
    (hnrf : lookupA s.fs.readFail h.hpath = none)
    (hfile : lookupA s.fs.files h.hpath = some c)
    (hlen : 5 ≤ c.data.length) :
    AnalogRead s pin = AtoiList (c.data.take 4) := by
  unfold AnalogRead
  simp only [hop]
  rw [analogGetValue_content s.fs op hid h c hvf hh hopen hro hnrf hfile
    (by intro hc; rw [hc] at hlen; simp at hlen)]
  have hmin : min 5 c.data.length = 5 := by omega
  rw [hmin]

/-- Witness for C9: the device text "12345" is read as 1234. -/
theorem c9_analog_buffer_truncation_witness :
    (lookupA anaSys12345.amod.openPins 40 =
       some { pin := 40, analogLogical := 0, analogFile := SPath.saradc 0, valueFile := some 0 } ∧
     lookupA anaSys12345.fs.files (SPath.saradc 0) = some "12345" ∧
     5 ≤ ("12345" : String).data.length) ∧
    AnalogRead anaSys12345 40 = .ok (1234 : Int) := by
  refine ⟨by decide, ?_⟩
  rw [c9_analog_buffer_truncation anaSys12345 40
    { pin := 40, analogLogical := 0, analogFile := SPath.saradc 0, valueFile := some 0 }
    0 { hpath := SPath.saradc 0, writable := false, isOpen := true, pos := 0 }
    "12345" (by decide) (by decide) (by decide) (by decide) (by decide) (by decide)
    (by decide) (by decide)]
  rfl

-- ### C4

/-- C4: DigitalRead fails when the pin has no open handle; with a live
readable handle it reads up to one byte at offset 0 and maps a first
byte '1' to High and any other first byte to Low; with empty content the
zero-length read yields Low with only the EOF the read itself reported;
and when the read fails delivering zero bytes, the value is Low and the
error is exactly the read's own error. -/
theorem c4_digital_read_behaviour (s : GSys) (pin : Nat) :
    (lookupA s.gpio.openPins pin = none →
      DigitalRead s pin =
        (0, some "pin is being read from but has not been opened, call PinMode")) ∧
    (∀ op hid h c, lookupA s.gpio.openPins pin = some op →
      op.valueFile = some hid →
      lookupA s.fs.handles hid = some h →
      h.isOpen = true → h.writable = false →
      lookupA s.fs.readFail h.hpath = none →
      lookupA s.fs.files h.hpath = some c → c.data ≠ [] →
      DigitalRead s pin = ((if c.data.headD ' ' = '1' then High else Low), none)) ∧
    (∀ op hid h, lookupA s.gpio.openPins pin = some op →
      op.valueFile = some hid →
      lookupA s.fs.handles hid = some h →
      h.isOpen = true → h.writable = false →
      lookupA s.fs.readFail h.hpath = none →
      lookupA s.fs.files h.hpath = some "" →
      DigitalRead s pin = (Low, some "EOF")) ∧
    (∀ op hid h e, lookupA s.gpio.openPins pin = some op →
      op.valueFile = some hid →
      lookupA s.fs.handles hid = some h →
      h.isOpen = true → h.writable = false →
      lookupA s.fs.readFail h.hpath = some e →
      DigitalRead s pin = (Low, some e)) := by
  refine ⟨?_, ?_, ?_, ?_⟩
  · intro hnone
    unfold DigitalRead
    simp only [hnone]
  · intro op hid h c hop hvf hh hopen hro hnrf hfile hne
    unfold DigitalRead gpioGetValue fileReadAt FS.readAt
    simp only [hop, hvf, hh, hopen, hro, hnrf, hfile, Bool.not_true, Bool.false_eq_true,
      if_false]
    cases hc : c.data with
    | nil => exact absurd hc hne
    | cons c0 t => simp
  · intro op hid h hop hvf hh hopen hro hnrf hfile
    unfold DigitalRead gpioGetValue fileReadAt FS.readAt
    simp [hop, hvf, hh, hopen, hro, hnrf, hfile, Low]
  · intro op hid h e hop hvf hh hopen hro hrf
    unfold DigitalRead gpioGetValue fileReadAt FS.readAt
    simp [hop, hvf, hh, hopen, hro, hrf, Low]

/-- Witness for C4: reading the input system whose value file holds "0"
yields Low with no error. -/
theorem c4_digital_read_behaviour_witness :
    (lookupA inSys7.gpio.openPins 7 = some inOp7 ∧
     lookupA inSys7.fs.files (SPath.value 83) = some "0" ∧
     ("0" : String).data ≠ []) ∧
    DigitalRead inSys7 7 =
      ((if ("0" : String).data.headD ' ' = '1' then High else Low), none) :=
  ⟨by decide,
   (c4_digital_read_behaviour inSys7 7).2.1 inOp7 0
     { hpath := SPath.value 83, writable := false, isOpen := true, pos := 0 }
     "0" (by decide) (by decide) (by decide) (by decide) (by decide) (by decide)
     (by decide) (by decide)⟩

-- ### C8

/-- C8: hardware detection is a pure predicate over the
system-identification data: on data with four processor records,
MatchesHardwareConfig holds exactly when the Hardware field of the
highest-numbered record is "ODROIDC" or "ODROID-C2", and BoardRevision
selects revision 1 for "ODROIDC" and revision 2 for "ODROID-C2" from
that same field. -/
theorem c8_hardware_detection (data : CpuInfoData) (h4 : data.length = 4) :
    (MatchesHardwareConfig data = true ↔
      specHighestHardware data = "ODROIDC" ∨ specHighestHardware data = "ODROID-C2") ∧
    (specHighestHardware data = "ODROIDC" → BoardRevision data = 1) ∧
    (specHighestHardware data = "ODROID-C2" → BoardRevision data = 2) := by
  have h3 : data.length - 1 = 3 := by omega
  unfold MatchesHardwareConfig BoardRevision specHighestHardware
  rw [h3]
  by_cases h1 : CpuInfo data 3 "Hardware" = "ODROIDC" <;>
    by_cases h2 : CpuInfo data 3 "Hardware" = "ODROID-C2" <;>
      simp [h1, h2]

/-- Witness for C8 at a concrete four-record ODROID-C2 cpuinfo. -/
theorem c8_hardware_detection_witness :
    cpuDataC2.length = 4 ∧
    ((MatchesHardwareConfig cpuDataC2 = true ↔
       specHighestHardware cpuDataC2 = "ODROIDC" ∨
       specHighestHardware cpuDataC2 = "ODROID-C2") ∧
     (specHighestHardware cpuDataC2 = "ODROIDC" → BoardRevision cpuDataC2 = 1) ∧
     (specHighestHardware cpuDataC2 = "ODROID-C2" → BoardRevision cpuDataC2 = 2)) :=
  ⟨by decide, c8_hardware_detection cpuDataC2 (by decide)⟩

-- ### C7

/-- C7 counterexample: a "pins" value of the wrong dynamic shape makes
the GPIO module's SetOptions panic through the unchecked type assertion
instead of returning a configuration error. -/
theorem c7_wrong_shape_panics :
    gpioSetOptions gpioMod0 [("pins", OptVal.analogPins [])] =
      GoOut.panicked "interface conversion: interface is not hwio.DTGPIOModulePinDefMap" := by
  decide

/-- C7 amended: for both module types, SetOptions fails with a
configuration error when the required "pins" key is absent, succeeds
when the value has the module's pin-map type, and panics through the
unchecked type assertion when the value has any other dynamic type. -/
theorem c7_set_options_amended (g : DTGPIOModule) (a : ODroidCXAnalogModule)
    (opts : List (String × OptVal)) :
    (lookupA opts "pins" = none →
      gpioSetOptions g opts =
        GoOut.err ("module " ++ g.name ++ " SetOptions() did not get pins values") ∧
      analogSetOptions a opts =
        GoOut.err ("Module " ++ a.name ++ " SetOptions() did not get pins values")) ∧
    (∀ pm, lookupA opts "pins" = some (OptVal.gpioPins pm) →
      gpioSetOptions g opts = GoOut.ok { g with definedPins := pm }) ∧
    (∀ pm, lookupA opts "pins" = some (OptVal.analogPins pm) →
      analogSetOptions a opts = GoOut.ok { a with definedPins := pm }) ∧
    (∀ v, lookupA opts "pins" = some v → (∀ pm, v ≠ OptVal.gpioPins pm) →
      ∃ msg, gpioSetOptions g opts = GoOut.panicked msg) ∧
    (∀ v, lookupA opts "pins" = some v → (∀ pm, v ≠ OptVal.analogPins pm) →
      ∃ msg, analogSetOptions a opts = GoOut.panicked msg) := by
  refine ⟨?_, ?_, ?_, ?_, ?_⟩
  · intro h
    unfold gpioSetOptions analogSetOptions
    rw [h]
    exact ⟨rfl, rfl⟩
  · intro pm h
    unfold gpioSetOptions
    rw [h]
  · intro pm h
    unfold analogSetOptions
    rw [h]
  · intro v h hne
    unfold gpioSetOptions
    rw [h]
    cases v with
    | gpioPins pm => exact absurd rfl (hne pm)
    | analogPins pm => exact ⟨_, rfl⟩
    | str s => exact ⟨_, rfl⟩
  · intro v h hne
    unfold analogSetOptions
    rw [h]
    cases v with
    | analogPins pm => exact absurd rfl (hne pm)
    | gpioPins pm => exact ⟨_, rfl⟩
    | str s => exact ⟨_, rfl⟩

/-- Witness for C7 amended: absent "pins" key yields the configuration
errors on both module types. -/
theorem c7_set_options_amended_witness :
    lookupA ([] : List (String × OptVal)) "pins" = none ∧
    (gpioSetOptions gpioMod0 [] =
       GoOut.err ("module " ++ gpioMod0.name ++ " SetOptions() did not get pins values") ∧
     analogSetOptions anaSys.amod [] =
       GoOut.err ("Module " ++ anaSys.amod.name ++ " SetOptions() did not get pins values")) :=
  ⟨rfl, (c7_set_options_amended gpioMod0 anaSys.amod []).1 rfl⟩

-- ### C2

/-- C2 (divergence of the source from the claim): after
DTGPIOModule.Disable on a system owning open pin 7, the Registry entry
is still present and the cached value-file handle is still open — the
source only unexports.  The analog module's Disable, by contrast, does
remove its Registry entries and close its handles. -/
theorem c2_disable_releases_nothing :
    ((gpioModuleDisable outSys7).2 = none ∧
     ownerOf (gpioModuleDisable outSys7).1.registry 7 = some "gpio" ∧
     (lookupA (gpioModuleDisable outSys7).1.fs.handles 0).map Handle.isOpen = some true ∧
     lookupA (gpioModuleDisable outSys7).1.gpio.openPins 7 = some outOp7) ∧
    ((analogDisable anaSys).2 = none ∧
     ownerOf (analogDisable anaSys).1.registry 40 = none ∧
     (lookupA (analogDisable anaSys).1.fs.handles 0).map Handle.isOpen = some false) := by
  decide

-- ### C6

/-- C6 (divergence of the source from the claim): errors arising inside
DigitalWrite are swallowed, not returned.  With a nil cached value file,
gpioSetValue fails but DigitalWrite returns success and an unchanged
state; with an input-mode (read-only) handle, the WriteString fails but
gpioSetValue discards that error and DigitalWrite again returns
success. -/
theorem c6_digital_write_swallows_errors :
    ((gpioSetValue nilSys7.fs nilOp7 1).2 = some "value file is not defined" ∧
     DigitalWrite nilSys7 7 1 = (nilSys7, none)) ∧
    ((inSys7.fs.writeString 0 "1").2 = some "write: bad file descriptor" ∧
     (gpioSetValue inSys7.fs inOp7 1).2 = none ∧
     (DigitalWrite inSys7 7 1).2 = none) := by
  decide

-- ### C5

/-- C5 counterexample: with pin 7 open in input mode, DigitalWrite
returns success without writing any character to the value file, so
DigitalWrite does not require an output-mode handle and does not always
write one character when a handle exists. -/
theorem c5_input_mode_write_succeeds :
    (lookupA inSys7.gpio.openPins 7).map DTGPIOModuleOpenPin.mode = some PinIOMode.input ∧
    (DigitalWrite inSys7 7 1).2 = none ∧
    lookupA (DigitalWrite inSys7 7 1).1.fs.files (SPath.value 83) = some "0" := by
  decide

/-- C5 amended: DigitalWrite requires an existing handle of any mode and
fails with the not-open error if none exists; when the cached handle is
an open writable (output-mode) value file it seeks to offset 0 and
writes exactly one character, the token '0' when the value is 0 and '1'
for any non-zero value; with a read-only (input-mode) handle the seek
still happens but nothing is written and DigitalWrite still reports
success. -/
theorem c5_digital_write_amended (s : GSys) (pin : Nat) (v : Int) :
    (lookupA s.gpio.openPins pin = none →
      DigitalWrite s pin v =
        (s, some "pin is being written but has not been opened, called PinMode")) ∧
    (∀ op hid h c, lookupA s.gpio.openPins pin = some op →
      op.valueFile = some hid →
      lookupA s.fs.handles hid = some h →
      h.isOpen = true → h.writable = true →
      lookupA s.fs.files h.hpath = some c →
      DigitalWrite s pin v =
        ({ s with
             fs := { s.fs with
                       files := setA s.fs.files h.hpath
                         (String.mk ((if v = 0 then '0' else '1') :: c.data.drop 1)),
                       handles := setA s.fs.handles hid { h with pos := 1 } } },
         none)) ∧
    (∀ op hid h, lookupA s.gpio.openPins pin = some op →
      op.valueFile = some hid →
      lookupA s.fs.handles hid = some h →
      h.isOpen = true → h.writable = false →
      DigitalWrite s pin v =
        ({ s with
             fs := { s.fs with handles := setA s.fs.handles hid { h with pos := 0 } } },
         none)) := by
  refine ⟨?_, ?_, ?_⟩
  · intro hnone
    unfold DigitalWrite
    simp only [hnone]
  · intro op hid h c hop hvf hh hopen hw hfile
    by_cases hv : v = 0 <;>
      simp [DigitalWrite, gpioSetValue, FS.seekStart, FS.writeString, overwriteAt,
        hv, hop, hvf, hh, hopen, hw, hfile, setA_setA, lookupA_setA_self]
  · intro op hid h hop hvf hh hopen hw
    simp [DigitalWrite, gpioSetValue, FS.seekStart, FS.writeString,
      hop, hvf, hh, hopen, hw, setA_setA, lookupA_setA_self]

/-- Witness for C5 amended: writing Low to the output system overwrites
the single character of the value file with '0'. -/
theorem c5_digital_write_amended_witness :
    (lookupA outSys7.gpio.openPins 7 = some outOp7 ∧
     outOp7.valueFile = some 0 ∧
     lookupA outSys7.fs.files (SPath.value 83) = some "1") ∧
    DigitalWrite outSys7 7 0 =
      ({ outSys7 with
           fs := { outSys7.fs with
                     files := setA outSys7.fs.files (SPath.value 83)
                       (String.mk ((if (0 : Int) = 0 then '0' else '1') ::
                         ("1" : String).data.drop 1)),
                     handles := setA outSys7.fs.handles 0
                       { hpath := SPath.value 83, writable := true, isOpen := true,
                         pos := 1 } } },
       none) :=
  ⟨by decide,
   (c5_digital_write_amended outSys7 7 0).2.1 outOp7 0
     { hpath := SPath.value 83, writable := true, isOpen := true, pos := 1 }
     "1" (by decide) (by decide) (by decide) (by decide) (by decide) (by decide)⟩

-- ### C10

/-- C10: calling PinMode again with the mode the pin is already open
under does not run the close path: the registry, the exported directory
set and the previously cached handle are untouched (the old value file
is never closed), while a brand-new open-pin record with a brand-new
value-file handle replaces the cached one and the direction file is
rewritten. -/
theorem c10_pinmode_same_mode (s : GSys) (pin : Nat) (m : PinIOMode)
    (p : DTGPIOModulePinDef) (op : DTGPIOModuleOpenPin) (hid : Nat) (d c : String)
    (hdef : lookupA s.gpio.definedPins pin = some p)
    (hop : lookupA s.gpio.openPins pin = some op)
    (hmode : op.mode = m)
    (howner : lookupA s.registry pin = some s.gpio.name)
    (hdirs : p.gpioLogical ∈ s.fs.dirs)
    (hdirfile : lookupA s.fs.files (SPath.direction p.gpioLogical) = some d)
    (hvfile : lookupA s.fs.files (SPath.value p.gpioLogical) = some c)
    (hnof : SPath.value p.gpioLogical ∉ s.fs.openFail)
    (hvf : op.valueFile = some hid)
    (hlt : hid < s.fs.nextHandle) :
    (PinMode s pin m).2 = none ∧
    lookupA (PinMode s pin m).1.gpio.openPins pin =
      some (donePin pin p.gpioLogical s.fs.nextHandle m) ∧
    some s.fs.nextHandle ≠ op.valueFile ∧
    lookupA (PinMode s pin m).1.fs.handles hid = lookupA s.fs.handles hid ∧
    (PinMode s pin m).1.registry = s.registry ∧
    (PinMode s pin m).1.fs.dirs = s.fs.dirs ∧
    lookupA (PinMode s pin m).1.fs.files (SPath.direction p.gpioLogical) =
      some (if m = PinIOMode.output then "out" else "in") ∧
    lookupA (PinMode s pin m).1.fs.handles s.fs.nextHandle =
      some (freshValueHandle p.gpioLogical (decide (m = PinIOMode.output))) := by
  have hne : s.fs.nextHandle ≠ hid := by omega
  by_cases hm : m = PinIOMode.output <;>
    refine ⟨?_, ?_, ?_, ?_, ?_, ?_, ?_, ?_⟩ <;>
      · simp [PinMode, makeOpenGPIOPin, gpioExport, gpioDirection, assignPin, FS.openFile,
          FS.fileExists, FS.writeStringToFile, dirFileOf, valueFileOf, freshValueHandle,
          donePin, hm, hdef, hop, hmode, howner, hdirs, hdirfile, hvfile, hnof, hvf, hne,
          setA_setA, lookupA_setA_self, lookupA_setA_ne, parseDec_decimalStr]

/-- Witness for C10: re-running PinMode(7, Input) on the input system
leaves the old handle open and installs handle 1. -/
theorem c10_pinmode_same_mode_witness :
    (lookupA inSys7.gpio.definedPins 7 = some pin7Def ∧
     lookupA inSys7.gpio.openPins 7 = some inOp7 ∧
     inOp7.mode = PinIOMode.input ∧
     lookupA inSys7.registry 7 = some inSys7.gpio.name ∧
     (0 : Nat) < inSys7.fs.nextHandle) ∧
    ((PinMode inSys7 7 PinIOMode.input).2 = none ∧
     lookupA (PinMode inSys7 7 PinIOMode.input).1.gpio.openPins 7 =
       some (donePin 7 pin7Def.gpioLogical inSys7.fs.nextHandle PinIOMode.input) ∧
     some inSys7.fs.nextHandle ≠ inOp7.valueFile ∧
     lookupA (PinMode inSys7 7 PinIOMode.input).1.fs.handles 0 =
       lookupA inSys7.fs.handles 0 ∧
     (PinMode inSys7 7 PinIOMode.input).1.registry = inSys7.registry ∧
     (PinMode inSys7 7 PinIOMode.input).1.fs.dirs = inSys7.fs.dirs ∧
     lookupA (PinMode inSys7 7 PinIOMode.input).1.fs.files (SPath.direction pin7Def.gpioLogical) =
       some (if PinIOMode.input = PinIOMode.output then "out" else "in") ∧
     lookupA (PinMode inSys7 7 PinIOMode.input).1.fs.handles inSys7.fs.nextHandle =
       some (freshValueHandle pin7Def.gpioLogical (decide (PinIOMode.input = PinIOMode.output)))) :=
  ⟨by decide,
   c10_pinmode_same_mode inSys7 7 PinIOMode.input pin7Def inOp7 0 "in" "0"
     (by decide) (by decide) (by decide) (by decide) (by decide) (by decide) (by decide)
     (by decide) (by decide) (by decide)⟩

-- ### C1

/-- C1: switching an open pin to a different mode runs the close path
(old handle closed, pin transiently unassigned), re-assigns the pin to
the module, re-exports it (the export write is guarded on the control
directory being absent), writes the new direction, caches a brand-new
handle that is read-only for input and write+truncate for output, and
leaves no stale state observable: an input-mode read afterwards sees
only the fresh value file; assignPin fails whenever a different module
owns a pin. -/
theorem c1_pinmode_mode_switch (s : GSys) (pin : Nat) (m : PinIOMode)
    (p : DTGPIOModulePinDef) (op : DTGPIOModuleOpenPin) (hid : Nat) (h : Handle)
    (hdef : lookupA s.gpio.definedPins pin = some p)
    (hop : lookupA s.gpio.openPins pin = some op)
    (hmodne : op.mode ≠ m)
    (howner : lookupA s.registry pin = some s.gpio.name)
    (hgl : op.gpioLogical = p.gpioLogical)
    (hdirs : p.gpioLogical ∈ s.fs.dirs)
    (hvf : op.valueFile = some hid)
    (hh : lookupA s.fs.handles hid = some h)
    (hopen : h.isOpen = true)
    (hlt : hid < s.fs.nextHandle)
    (hnof : SPath.value p.gpioLogical ∉ s.fs.openFail)
    (hnrf : lookupA s.fs.readFail (SPath.value p.gpioLogical) = none) :
    c1Post s pin m p op hid h := by
  have hne : s.fs.nextHandle ≠ hid := by omega
  have hmodne2 : m ≠ op.mode := fun e => hmodne e.symm
  unfold c1Post
  by_cases hm : m = PinIOMode.output
  all_goals try subst hm
  all_goals refine ⟨?_, ?_, ?_, ?_, ?_, ?_, ?_, ?_, ?_, ?_, ?_⟩
  all_goals
    first
    | · intro fs2 op2 hex
        unfold gpioExport
        simp [hex]
    | · intro reg q m1 m2 hq hne12
        unfold assignPin
        rw [hq]
        simp [hne12]
    | · intro h9
        subst h9
        simp [PinMode, ClosePin, moduleClosePin, makeOpenGPIOPin, gpioExport, gpioUnexport,
          gpioDirection, assignPin, unassignPin, ownerOf, DigitalRead, gpioGetValue,
          fileReadAt, FS.readAt, FS.openFile, FS.closeHandle, FS.fileExists,
          FS.writeStringToFile, dirFileOf, valueFileOf, freshValueHandle, donePin, lookupA,
          hdef, hop, hmodne, hmodne2, howner, hgl, hdirs, hvf, hh, hopen, hnof, hnrf, hne,
          setA_setA, lookupA_setA_self, lookupA_setA_ne, lookupA_eraseA_self,
          lookupA_eraseA_ne, parseDec_decimalStr]
    | · simp [PinMode, ClosePin, moduleClosePin, makeOpenGPIOPin, gpioExport, gpioUnexport,
          gpioDirection, assignPin, unassignPin, ownerOf, DigitalRead, gpioGetValue,
          fileReadAt, FS.readAt, FS.openFile, FS.closeHandle, FS.fileExists,
          FS.writeStringToFile, dirFileOf, valueFileOf, freshValueHandle, donePin, lookupA,
          hm, hdef, hop, hmodne, hmodne2, howner, hgl, hdirs, hvf, hh, hopen, hnof, hnrf, hne,
          setA_setA, lookupA_setA_self, lookupA_setA_ne, lookupA_eraseA_self,
          lookupA_eraseA_ne, parseDec_decimalStr]
    | · simp [PinMode, ClosePin, moduleClosePin, makeOpenGPIOPin, gpioExport, gpioUnexport,
          gpioDirection, assignPin, unassignPin, ownerOf, DigitalRead, gpioGetValue,
          fileReadAt, FS.readAt, FS.openFile, FS.closeHandle, FS.fileExists,
          FS.writeStringToFile, dirFileOf, valueFileOf, freshValueHandle, donePin, lookupA,
          hdef, hop, hmodne, hmodne2, howner, hgl, hdirs, hvf, hh, hopen, hnof, hnrf, hne,
          setA_setA, lookupA_setA_self, lookupA_setA_ne, lookupA_eraseA_self,
          lookupA_eraseA_ne, parseDec_decimalStr]

/-- Witness for C1: switching pin 7 of the output system (which had
written High) to Input. -/
theorem c1_pinmode_mode_switch_witness :
    (lookupA outSys7.gpio.definedPins 7 = some pin7Def ∧
     lookupA outSys7.gpio.openPins 7 = some outOp7 ∧
     outOp7.mode ≠ PinIOMode.input ∧
     lookupA outSys7.registry 7 = some outSys7.gpio.name ∧
     outOp7.gpioLogical = pin7Def.gpioLogical ∧
     pin7Def.gpioLogical ∈ outSys7.fs.dirs ∧
     outOp7.valueFile = some 0 ∧
     (0 : Nat) < outSys7.fs.nextHandle) ∧
    c1Post outSys7 7 PinIOMode.input pin7Def outOp7 0
      { hpath := SPath.value 83, writable := true, isOpen := true, pos := 1 } :=
  ⟨by decide,
   c1_pinmode_mode_switch outSys7 7 PinIOMode.input pin7Def outOp7 0
     { hpath := SPath.value 83, writable := true, isOpen := true, pos := 1 }
     (by decide) (by decide) (by decide) (by decide) (by decide) (by decide) (by decide)
     (by decide) (by decide) (by decide) (by decide) (by decide)⟩

end Hwio
